import Mathlib

/-!
Shallow embedding of the Autonomous-Marketplace-Flipper core
(decision actor, valuation service, inventory actor) and proofs of the
specified properties.  Prices, scores and money amounts are modelled as
exact rationals; impure details (wall-clock timestamps, logging, the
key-value persistence calls) are elided, as they do not affect the
business logic under verification.
-/

namespace Flipper

/-- Business rules from `decision-actor/model.ts` (`BUSINESS_RULES`). -/
def MIN_PROFIT_MARGIN : ℚ := 0.20

/-- Minimum profit in dollars (`BUSINESS_RULES.MIN_PROFIT`). -/
def MIN_PROFIT : ℚ := 50

/-- Cumulative statistics (`AgentStats` in `types/shared.ts`). -/
structure AgentStats where
  listings_scanned : ℕ
  items_purchased : ℕ
  items_listed : ℕ
  total_invested : ℚ
  potential_revenue : ℚ
  expected_profit : ℚ
  expected_roi : ℚ
  deriving Repr, DecidableEq

/-- Actor state (`DecisionActorState` in `decision-actor/model.ts`).
The JS `Set<string>` of purchased ids is modelled as a duplicate-free
insertion-ordered list. -/
structure DecisionActorState where
  budget : ℚ
  purchasedIds : List String
  stats : AgentStats
  deriving Repr, DecidableEq

/-- `createInitialState` from `decision-actor/model.ts`. -/
def createInitialState : DecisionActorState :=
  { budget := 5000
    purchasedIds := []
    stats :=
      { listings_scanned := 0
        items_purchased := 0
        items_listed := 0
        total_invested := 0
        potential_revenue := 0
        expected_profit := 0
        expected_roi := 0 } }

/-- `validateBudget` from `decision-actor/model.ts`: a purchase fits only
when the current budget is positive and the price does not exceed it. -/
def validateBudget (price currentBudget : ℚ) : Bool :=
  if currentBudget ≤ 0 then false
  else decide (price ≤ currentBudget)

/-- `hasPurchased` from `decision-actor/model.ts`. -/
def hasPurchased (id : String) (state : DecisionActorState) : Bool :=
  state.purchasedIds.contains id

/-- `addPurchasedId` from `decision-actor/model.ts`; `Set.add` appends the
id when it is not already present. -/
def addPurchasedId (id : String) (state : DecisionActorState) : DecisionActorState :=
  if state.purchasedIds.contains id then state
  else { state with purchasedIds := state.purchasedIds ++ [id] }

/-- Fields of an evaluated listing read by the decision actor
(`EvaluatedListing` in `types/shared.ts`; metadata fields that are only
carried along — url, marketplace, category, timestamps, reasoning text,
score breakdown — are elided). -/
structure EvaluatedListing where
  id : String
  title : String
  price : ℚ
  score : ℚ
  estimated_resale : ℚ
  profit_potential : ℚ
  profit_margin : ℚ
  deriving Repr, DecidableEq

/-- Decision actions. -/
inductive Action where
  | BUY
  | SKIP
  deriving Repr, DecidableEq

/-- JavaScript `Number.prototype.toFixed(1)` on the exact rational value:
rounding to one decimal place. -/
def toFixed1 (x : ℚ) : ℚ := (round (x * 10) : ℤ) / 10

/-- The reasoning strings produced by `evaluateOpportunity`, with the
values that the source interpolates into them carried explicitly:
`alreadyPurchased` for "Already purchased this item",
`exceedsBudget price budget` for "Exceeds budget: $price > $budget",
`marginTooLow actualPct requiredPct` for
"Profit margin too low: actualPct% < requiredPct%" (both to one decimal
place), `profitTooLow actual required` for
"Profit amount too low: $actual < $required", and
`strongOpportunity profit marginPct score` for
"Strong opportunity: Profit: $profit (marginPct% margin), Score: score". -/
inductive Reasoning where
  | alreadyPurchased
  | exceedsBudget (price budget : ℚ)
  | marginTooLow (actualPct requiredPct : ℚ)
  | profitTooLow (actual required : ℚ)
  | strongOpportunity (profit marginPct score : ℚ)
  deriving Repr, DecidableEq

/-- A decision record (`Decision` in `types/shared.ts`); the impure
`timestamp` field is elided. -/
structure Decision where
  action : Action
  item_id : String
  title : String
  price : ℚ
  score : ℚ
  profit_potential : ℚ
  reasoning : Reasoning
  deriving Repr, DecidableEq

/-- `evaluateOpportunity` from `decision-actor/controller.ts`: the four
ordered checks (already purchased, budget, minimum margin, minimum
profit), short-circuiting at the first failure, else BUY. -/
def evaluateOpportunity (item : EvaluatedListing) (state : DecisionActorState) : Decision :=
  if hasPurchased item.id state then
    { action := .SKIP, item_id := item.id, title := item.title, price := item.price
      score := item.score, profit_potential := item.profit_potential
      reasoning := .alreadyPurchased }
  else if ¬ validateBudget item.price state.budget then
    { action := .SKIP, item_id := item.id, title := item.title, price := item.price
      score := item.score, profit_potential := item.profit_potential
      reasoning := .exceedsBudget item.price state.budget }
  else if item.profit_margin < MIN_PROFIT_MARGIN then
    { action := .SKIP, item_id := item.id, title := item.title, price := item.price
      score := item.score, profit_potential := item.profit_potential
      reasoning := .marginTooLow (toFixed1 (item.profit_margin * 100))
        (toFixed1 (MIN_PROFIT_MARGIN * 100)) }
  else if item.profit_potential < MIN_PROFIT then
    { action := .SKIP, item_id := item.id, title := item.title, price := item.price
      score := item.score, profit_potential := item.profit_potential
      reasoning := .profitTooLow item.profit_potential MIN_PROFIT }
  else
    { action := .BUY, item_id := item.id, title := item.title, price := item.price
      score := item.score, profit_potential := item.profit_potential
      reasoning := .strongOpportunity item.profit_potential
        (toFixed1 (item.profit_margin * 100)) item.score }

/-- `updateStats` from `decision-actor/model.ts`: on a BUY, bump the
purchase counters and recompute the running ROI — but only when the
updated `total_invested` is positive; otherwise `expected_roi` is left
untouched.  SKIP decisions change nothing. -/
def updateStats (decision : Decision) (state : DecisionActorState) : DecisionActorState :=
  if decision.action = .BUY then
    let s := state.stats
    let stats1 : AgentStats :=
      { s with
        items_purchased := s.items_purchased + 1
        total_invested := s.total_invested + decision.price
        expected_profit := s.expected_profit + decision.profit_potential
        potential_revenue := s.potential_revenue + (decision.price + decision.profit_potential) }
    let stats2 : AgentStats :=
      if 0 < stats1.total_invested then
        { stats1 with expected_roi := stats1.expected_profit / stats1.total_invested * 100 }
      else stats1
    { state with stats := stats2 }
  else state

/-- One iteration of the loop body of `makeDecisions` in
`decision-actor/controller.ts`: evaluate the item and, on BUY, record the
purchased id, update the stats, and deduct the price from the budget. -/
def decisionStep (state : DecisionActorState) (item : EvaluatedListing) :
    Decision × DecisionActorState :=
  let decision := evaluateOpportunity item state
  if decision.action = .BUY then
    let s1 := addPurchasedId item.id state
    let s2 := updateStats decision s1
    (decision, { s2 with budget := s2.budget - decision.price })
  else
    (decision, state)

/-- The loop of `makeDecisions` in `decision-actor/controller.ts`, run
from an explicit state (the `existingState` branch of the source); returns
the decision list together with the final state. -/
def makeDecisionsFrom (evaluated : List EvaluatedListing) (state : DecisionActorState) :
    List Decision × DecisionActorState :=
  match evaluated with
  | [] => ([], state)
  | item :: rest =>
    let p := decisionStep state item
    let q := makeDecisionsFrom rest p.2
    (p.1 :: q.1, q.2)

/-- The fresh temporary state built by `makeDecisions` when no
`existingState` is supplied. -/
def initialSessionState (budget : ℚ) : DecisionActorState :=
  { budget := budget
    purchasedIds := []
    stats :=
      { listings_scanned := 0
        items_purchased := 0
        items_listed := 0
        total_invested := 0
        potential_revenue := 0
        expected_profit := 0
        expected_roi := 0 } }

/-- `makeDecisions` from `decision-actor/controller.ts` without an
existing state: run the loop from a fresh session state. -/
def makeDecisions (evaluated : List EvaluatedListing) (budget : ℚ) : List Decision :=
  (makeDecisionsFrom evaluated (initialSessionState budget)).1

/-- Sum of the prices of the BUY decisions of a batch. -/
def sumBuyPrices (decisions : List Decision) : ℚ :=
  (decisions.filter (fun d => d.action = .BUY)).foldr (fun d acc => d.price + acc) 0

/-- The actor wrapper `DecisionActor.makeDecisions` from
`decision-actor/index.ts`: reassign the stored budget to the argument, run
the controller loop on the actor state, then bump `listings_scanned` by
the batch size.  (Logging, the downstream `processPurchases` actor calls
and the persistence write do not touch the actor state and are elided.) -/
def actorMakeDecisions (evaluated : List EvaluatedListing) (budget : ℚ)
    (s : DecisionActorState) : List Decision × DecisionActorState :=
  let s0 := { s with budget := budget }
  let p := makeDecisionsFrom evaluated s0
  (p.1,
    { p.2 with
      stats := { p.2.stats with
        listings_scanned := p.2.stats.listings_scanned + evaluated.length } })

/-- `DecisionActor.updateConfig` from `decision-actor/index.ts`: reassign
the budget when the partial config carries one; nothing else changes. -/
def updateConfig (budget? : Option ℚ) (s : DecisionActorState) : DecisionActorState :=
  match budget? with
  | some b => { s with budget := b }
  | none => s

/-! ### Valuation service (`valuation-service/controller.ts`) -/

/-- Historical reference data (`HistoricalData`). -/
structure HistoricalData where
  avg : ℚ
  min : ℚ
  max : ℚ
  msrp : ℚ
  deriving Repr, DecidableEq

/-- `calculateHistoricalScore`: 100 at or below the historical min, 0 at
or above the max, linear in between, 100 in the degenerate min = max
case; the interpolated value is clamped to [0, 100]. -/
def calculateHistoricalScore (current : ℚ) (historical : HistoricalData) : ℚ :=
  if historical.min = historical.max then 100
  else if current ≤ historical.min then 100
  else if current ≥ historical.max then 0
  else
    let score := 100 * (1 - (current - historical.min) / (historical.max - historical.min))
    max 0 (min 100 score)

/-- `calculateMSRPScore`: 0 for a zero MSRP, 0 at or above MSRP, 100 at or
below half MSRP, linear in between; the interpolated value is clamped to
[0, 100]. -/
def calculateMSRPScore (current msrp : ℚ) : ℚ :=
  if msrp = 0 then 0
  else if current ≥ msrp then 0
  else
    let ratio := current / msrp
    if ratio ≤ 0.5 then 100
    else
      let score := 100 * (1 - (ratio - 0.5) / 0.5)
      max 0 (min 100 score)

/-- `pat` is a prefix of the character list `s`. -/
def charsStartWith : List Char → List Char → Bool
  | [], _ => true
  | _ :: _, [] => false
  | c :: cs, d :: ds => c == d && charsStartWith cs ds

/-- `pat` occurs as a contiguous run inside the character list. -/
def charsContain (pat : List Char) : List Char → Bool
  | [] => charsStartWith pat []
  | d :: ds => charsStartWith pat (d :: ds) || charsContain pat ds

/-- JavaScript `String.prototype.includes`: `pat` occurs as a contiguous
substring of `s` (modelled on the character lists). -/
def strContains (s pat : String) : Bool :=
  charsContain pat.toList s.toList

/-- JavaScript `String.prototype.toLowerCase` (per-character lowering, as
`String.toLower` in the Lean core library but by structural recursion). -/
def strToLower (s : String) : String :=
  String.mk (s.toList.map Char.toLower)

/-- The characters before the first space: JS `title.split(' ')[0]`
(`split` on the single space character always yields a non-empty array
whose first element is the text before the first separator). -/
def takeUntilSpace : List Char → List Char
  | [] => []
  | c :: cs => if c == ' ' then [] else c :: takeUntilSpace cs

/-- `extractProductKey` from `valuation-service/controller.ts`: check the
lowercased title for the known keywords in a fixed order; otherwise take
the text before the first space of the original title, lowercased, with
"unknown" when that text is empty (`''` is falsy in JS). -/
def extractProductKey (title : String) : String :=
  let titleLower := strToLower title
  if strContains titleLower "iphone" then "iphone"
  else if strContains titleLower "macbook" then "macbook"
  else if strContains titleLower "ps5" then "ps5"
  else if strContains titleLower "laptop" then "laptop"
  else if strContains titleLower "tv" then "tv"
  else
    let firstWord := String.mk (takeUntilSpace title.toList)
    if firstWord = "" then "unknown" else strToLower firstWord

/-! ### Inventory actor (`inventory-actor/controller.ts`, `model.ts`) -/

/-- Inventory item status. -/
inductive ItemStatus where
  | purchased
  | listed
  | sold
  deriving Repr, DecidableEq

/-- An inventory item (`InventoryItem` in `inventory-actor/types.ts`);
the impure `purchase_date` / `listed_date` timestamps and the valuation
metadata not read by the re-listing sweep are elided. -/
structure InventoryItem where
  id : String
  title : String
  price : ℚ
  url : String
  marketplace : String
  category : String
  estimated_resale : ℚ
  status : ItemStatus
  resale_price : Option ℚ := none
  deriving Repr, DecidableEq

/-- A marketplace listing (`Listing` in `inventory-actor/types.ts`); the
impure `timestamp` field is elided. -/
structure Listing where
  id : String
  title : String
  price : ℚ
  url : String
  marketplace : String
  category : String
  deriving Repr, DecidableEq

/-- JS `Map.prototype.get` on the inventory map, which is modelled as an
insertion-ordered association list. -/
def invGet (k : String) : List (String × InventoryItem) → Option InventoryItem
  | [] => none
  | (k', v') :: rest => if k' = k then some v' else invGet k rest

/-- JS `Map.prototype.set`: replace in place when the key exists, append
otherwise. -/
def invSet (k : String) (v : InventoryItem) :
    List (String × InventoryItem) → List (String × InventoryItem)
  | [] => [(k, v)]
  | (k', v') :: rest => if k' = k then (k, v) :: rest else (k', v') :: invSet k v rest

/-- Inventory actor state (`InventoryState` in `inventory-actor/types.ts`). -/
structure InventoryState where
  inventory : List (String × InventoryItem)
  listedIds : List String
  deriving Repr, DecidableEq

/-- `updateItemStatus` from `inventory-actor/model.ts`: look the item up
by id (throwing "Item not found in inventory" when absent), set its
status, and record the id in `listedIds` when the new status is `listed`. -/
def updateItemStatus (id : String) (status : ItemStatus) (state : InventoryState) :
    Except String InventoryState :=
  match invGet id state.inventory with
  | none => .error "Item not found in inventory"
  | some item =>
    let item' := { item with status := status }
    .ok { state with
      inventory := invSet id item' state.inventory
      listedIds :=
        if status = .listed ∧ ¬ state.listedIds.contains id then
          state.listedIds ++ [id]
        else state.listedIds }

/-- `createReListing` from `inventory-actor/controller.ts`: a synthetic
resale listing priced at the estimated resale value. -/
def createReListing (item : InventoryItem) : Listing :=
  { id := "resale_" ++ item.id
    title := item.title
    price := item.estimated_resale
    url := item.url
    marketplace := item.marketplace
    category := item.category }

/-- The loop body of `relistItems`: for each snapshot item, emit its
re-listing, flip its status to `listed`, and write `resale_price` back on
the updated map entry. -/
def relistAux (items : List InventoryItem) (state : InventoryState) :
    Except String (List Listing × InventoryState) :=
  match items with
  | [] => .ok ([], state)
  | item :: rest =>
    match updateItemStatus item.id .listed state with
    | .error e => .error e
    | .ok state1 =>
      let state2 :=
        match invGet item.id state1.inventory with
        | some updatedItem =>
          { state1 with
            inventory :=
              invSet item.id { updatedItem with resale_price := some item.estimated_resale }
                state1.inventory }
        | none => state1
      match relistAux rest state2 with
      | .error e => .error e
      | .ok q => .ok (createReListing item :: q.1, q.2)

/-- `relistItems` from `inventory-actor/controller.ts`: snapshot the
inventory values with status `purchased`, then run the re-listing loop. -/
def relistItems (state : InventoryState) : Except String (List Listing × InventoryState) :=
  let purchasedItems :=
    (state.inventory.map Prod.snd).filter (fun item => item.status = .purchased)
  relistAux purchasedItems state

/-- Number of BUY decisions in a batch. -/
def countBuys (decisions : List Decision) : ℕ :=
  (decisions.filter (fun d => d.action = .BUY)).length

/-! ### Basic facts about the decision engine -/

theorem evaluateOpportunity_item_id (item : EvaluatedListing) (state : DecisionActorState) :
    (evaluateOpportunity item state).item_id = item.id := by
  unfold evaluateOpportunity
  split_ifs <;> rfl

theorem evaluateOpportunity_price (item : EvaluatedListing) (state : DecisionActorState) :
    (evaluateOpportunity item state).price = item.price := by
  unfold evaluateOpportunity
  split_ifs <;> rfl

theorem evaluateOpportunity_profit (item : EvaluatedListing) (state : DecisionActorState) :
    (evaluateOpportunity item state).profit_potential = item.profit_potential := by
  unfold evaluateOpportunity
  split_ifs <;> rfl

/-- The BUY action is emitted exactly when all four checks pass. -/
theorem evaluateOpportunity_buy_iff (item : EvaluatedListing) (state : DecisionActorState) :
    (evaluateOpportunity item state).action = .BUY ↔
      hasPurchased item.id state = false ∧
      validateBudget item.price state.budget = true ∧
      ¬ item.profit_margin < MIN_PROFIT_MARGIN ∧
      ¬ item.profit_potential < MIN_PROFIT := by
  unfold evaluateOpportunity
  split_ifs with h1 h2 h3 h4 <;>
    simp_all

/-! ### C1: order of the decision checks -/

/-- A zero-priced, high-margin listing used to exercise the zero-budget
corner of the budget check. -/
def freeItem : EvaluatedListing :=
  { id := "item-free"
    title := "Free item"
    price := 0
    score := 80
    estimated_resale := 100
    profit_potential := 100
    profit_margin := 1 }

/-- A state whose remaining budget is exactly 0. -/
def zeroBudgetState : DecisionActorState :=
  { budget := 0
    purchasedIds := []
    stats := createInitialState.stats }

/-- C1 is false as stated: at price 0 against budget 0 every check named
by the claim passes — the item is not already purchased, its price does
not exceed the budget, and margin and profit clear their thresholds — yet
the engine answers SKIP with the budget reasoning instead of the claimed
BUY, because `validateBudget` also rejects any non-positive budget. -/
theorem check_order_counterexample :
    hasPurchased freeItem.id zeroBudgetState = false ∧
    ¬ freeItem.price > zeroBudgetState.budget ∧
    ¬ freeItem.profit_margin < MIN_PROFIT_MARGIN ∧
    ¬ freeItem.profit_potential < MIN_PROFIT ∧
    (evaluateOpportunity freeItem zeroBudgetState).action = .SKIP ∧
    (evaluateOpportunity freeItem zeroBudgetState).reasoning =
      .exceedsBudget freeItem.price zeroBudgetState.budget := by
  refine ⟨rfl, by norm_num [freeItem, zeroBudgetState], ?_, ?_, ?_, ?_⟩ <;>
    norm_num [freeItem, zeroBudgetState, MIN_PROFIT_MARGIN, MIN_PROFIT,
      evaluateOpportunity, hasPurchased, validateBudget, createInitialState]

/-- **C1 (amended)**: `evaluateOpportunity` applies its checks in this
exact order, short-circuiting at the first failing check: (1) listing
already purchased → SKIP "already purchased"; (2) `validateBudget` fails
— the budget is not positive or the price exceeds it — → SKIP with a
reason carrying both the price and the budget; (3) margin below 20% →
SKIP with a reason carrying the actual and required percentages to one
decimal place; (4) profit below $50 → SKIP with a reason carrying the
actual and required dollar amounts; (5) otherwise BUY with a reason
carrying the profit amount, margin percentage and score. -/
theorem evaluateOpportunity_check_order (item : EvaluatedListing) (state : DecisionActorState) :
    (hasPurchased item.id state = true →
      evaluateOpportunity item state =
        { action := .SKIP, item_id := item.id, title := item.title, price := item.price
          score := item.score, profit_potential := item.profit_potential
          reasoning := .alreadyPurchased }) ∧
    (hasPurchased item.id state = false →
      validateBudget item.price state.budget = false →
      evaluateOpportunity item state =
        { action := .SKIP, item_id := item.id, title := item.title, price := item.price
          score := item.score, profit_potential := item.profit_potential
          reasoning := .exceedsBudget item.price state.budget }) ∧
    (hasPurchased item.id state = false →
      validateBudget item.price state.budget = true →
      item.profit_margin < MIN_PROFIT_MARGIN →
      evaluateOpportunity item state =
        { action := .SKIP, item_id := item.id, title := item.title, price := item.price
          score := item.score, profit_potential := item.profit_potential
          reasoning := .marginTooLow (toFixed1 (item.profit_margin * 100))
            (toFixed1 (MIN_PROFIT_MARGIN * 100)) }) ∧
    (hasPurchased item.id state = false →
      validateBudget item.price state.budget = true →
      ¬ item.profit_margin < MIN_PROFIT_MARGIN →
      item.profit_potential < MIN_PROFIT →
      evaluateOpportunity item state =
        { action := .SKIP, item_id := item.id, title := item.title, price := item.price
          score := item.score, profit_potential := item.profit_potential
          reasoning := .profitTooLow item.profit_potential MIN_PROFIT }) ∧
    (hasPurchased item.id state = false →
      validateBudget item.price state.budget = true →
      ¬ item.profit_margin < MIN_PROFIT_MARGIN →
      ¬ item.profit_potential < MIN_PROFIT →
      evaluateOpportunity item state =
        { action := .BUY, item_id := item.id, title := item.title, price := item.price
          score := item.score, profit_potential := item.profit_potential
          reasoning := .strongOpportunity item.profit_potential
            (toFixed1 (item.profit_margin * 100)) item.score }) := by
  refine ⟨?_, ?_, ?_, ?_, ?_⟩ <;>
    intros <;>
    simp [evaluateOpportunity, *]

/-- A listing that passes all four checks against `richState`. -/
def buyItem : EvaluatedListing :=
  { id := "item-buy"
    title := "Console"
    price := 100
    score := 90
    estimated_resale := 300
    profit_potential := 200
    profit_margin := 0.5 }

/-- A fresh state with a comfortable budget. -/
def richState : DecisionActorState :=
  { budget := 1000
    purchasedIds := []
    stats := createInitialState.stats }

/-- Witness for the amended C1: the BUY branch fires on a concrete
passing listing. -/
theorem evaluateOpportunity_check_order_witness :
    evaluateOpportunity buyItem richState =
      { action := .BUY, item_id := buyItem.id, title := buyItem.title, price := buyItem.price
        score := buyItem.score, profit_potential := buyItem.profit_potential
        reasoning := .strongOpportunity buyItem.profit_potential
          (toFixed1 (buyItem.profit_margin * 100)) buyItem.score } :=
  (evaluateOpportunity_check_order buyItem richState).2.2.2.2
    (by rfl)
    (by norm_num [validateBudget, buyItem, richState])
    (by norm_num [buyItem, MIN_PROFIT_MARGIN])
    (by norm_num [buyItem, MIN_PROFIT])

/-! ### C10: the budget check rejects any non-positive budget -/

/-- **C10**: `validateBudget price budget` holds exactly when the budget
is positive and the price does not exceed it; consequently, whenever the
remaining budget is non-positive, a not-yet-purchased listing is SKIPped
with the budget reasoning even when its price does not exceed the
budget. -/
theorem validateBudget_spec (p b : ℚ) (item : EvaluatedListing) (state : DecisionActorState) :
    (validateBudget p b = true ↔ 0 < b ∧ p ≤ b) ∧
    (state.budget ≤ 0 → hasPurchased item.id state = false →
      evaluateOpportunity item state =
        { action := .SKIP, item_id := item.id, title := item.title, price := item.price
          score := item.score, profit_potential := item.profit_potential
          reasoning := .exceedsBudget item.price state.budget }) := by
  constructor
  · unfold validateBudget
    split_ifs with hb
    · simp only [Bool.false_eq_true, false_iff]
      rintro ⟨h1, _⟩
      linarith
    · push_neg at hb
      simp [decide_eq_true_eq, hb]
  · intro hb hnp
    have hv : validateBudget item.price state.budget = false := by
      unfold validateBudget
      simp [hb]
    simp [evaluateOpportunity, hnp, hv]

/-- Witness for C10: `validateBudget` accepts 100 against 1000, and the
zero-priced listing against the zero budget is SKIPped with the budget
reasoning. -/
theorem validateBudget_spec_witness :
    validateBudget 100 1000 = true ∧
    evaluateOpportunity freeItem zeroBudgetState =
      { action := .SKIP, item_id := freeItem.id, title := freeItem.title
        price := freeItem.price, score := freeItem.score
        profit_potential := freeItem.profit_potential
        reasoning := .exceedsBudget freeItem.price zeroBudgetState.budget } :=
  ⟨(validateBudget_spec 100 1000 freeItem zeroBudgetState).1.mpr (by norm_num),
   (validateBudget_spec 100 1000 freeItem zeroBudgetState).2
     (by norm_num [zeroBudgetState]) (by rfl)⟩

/-! ### C2: side effects of a BUY -/

/-- A state whose stats carry a non-zero ROI while nothing has been
invested yet (such a state can be supplied as `existingState`). -/
def staleRoiState : DecisionActorState :=
  { budget := 10
    purchasedIds := []
    stats :=
      { listings_scanned := 0
        items_purchased := 0
        items_listed := 0
        total_invested := 0
        potential_revenue := 0
        expected_profit := 0
        expected_roi := 7 } }

/-- A zero-priced listing that clears every check against a positive
budget. -/
def zeroPriceItem : EvaluatedListing :=
  { id := "item-zero"
    title := "Giveaway"
    price := 0
    score := 80
    estimated_resale := 60
    profit_potential := 60
    profit_margin := 1 }

/-- C2 is false as stated: a BUY of a zero-priced listing leaves
`total_invested` at 0, and the code then leaves `expected_roi` untouched
(here 7) instead of recomputing it to the claimed value 0. -/
theorem roi_guard_counterexample :
    (makeDecisionsFrom [zeroPriceItem] staleRoiState).1.map Decision.action = [.BUY] ∧
    (makeDecisionsFrom [zeroPriceItem] staleRoiState).2.stats.total_invested = 0 ∧
    (makeDecisionsFrom [zeroPriceItem] staleRoiState).2.stats.expected_roi = 7 ∧
    (makeDecisionsFrom [zeroPriceItem] staleRoiState).2.stats.expected_roi ≠ 0 := by
  norm_num [makeDecisionsFrom, decisionStep, evaluateOpportunity, updateStats,
    addPurchasedId, hasPurchased, validateBudget, zeroPriceItem, staleRoiState,
    MIN_PROFIT_MARGIN, MIN_PROFIT]

/-- **C2 (amended)**: within a decision batch each listing is processed by
`decisionStep`, whose decision is `evaluateOpportunity` on the current
state and whose side effects on a BUY are applied immediately, before the
next listing is evaluated: the listingId is appended to
`purchasedListingIds`, the budget is decremented by the price,
`items_purchased` is incremented by 1, `total_invested` by the price,
`expected_profit` by the profit potential, `potential_revenue` by
price + profit potential, and `expected_roi` is recomputed as
expected_profit / total_invested * 100 when the updated `total_invested`
is positive and left unchanged otherwise; a SKIP leaves state and stats
unchanged. -/
theorem decisionStep_effects (state : DecisionActorState) (item : EvaluatedListing)
    (rest : List EvaluatedListing) :
    ((makeDecisionsFrom (item :: rest) state).1 =
      (decisionStep state item).1 ::
        (makeDecisionsFrom rest (decisionStep state item).2).1) ∧
    ((decisionStep state item).1 = evaluateOpportunity item state) ∧
    ((evaluateOpportunity item state).action = .BUY →
      (decisionStep state item).2.purchasedIds = state.purchasedIds ++ [item.id] ∧
      (decisionStep state item).2.budget = state.budget - item.price ∧
      (decisionStep state item).2.stats.items_purchased = state.stats.items_purchased + 1 ∧
      (decisionStep state item).2.stats.total_invested =
        state.stats.total_invested + item.price ∧
      (decisionStep state item).2.stats.expected_profit =
        state.stats.expected_profit + item.profit_potential ∧
      (decisionStep state item).2.stats.potential_revenue =
        state.stats.potential_revenue + (item.price + item.profit_potential) ∧
      (decisionStep state item).2.stats.expected_roi =
        (if 0 < state.stats.total_invested + item.price then
          (state.stats.expected_profit + item.profit_potential) /
            (state.stats.total_invested + item.price) * 100
        else state.stats.expected_roi) ∧
      (decisionStep state item).2.stats.listings_scanned = state.stats.listings_scanned ∧
      (decisionStep state item).2.stats.items_listed = state.stats.items_listed) ∧
    ((evaluateOpportunity item state).action = .SKIP →
      (decisionStep state item).2 = state) := by
  have hfst : (decisionStep state item).1 = evaluateOpportunity item state := by
    simp only [decisionStep]
    split <;> rfl
  refine ⟨rfl, hfst, ?_, ?_⟩
  · intro hbuy
    have hnp : hasPurchased item.id state = false :=
      ((evaluateOpportunity_buy_iff item state).mp hbuy).1
    have hup : state.purchasedIds.contains item.id = false := hnp
    have hmem : item.id ∉ state.purchasedIds := by simpa using hup
    simp [decisionStep, hbuy, evaluateOpportunity_price, evaluateOpportunity_profit,
      addPurchasedId, hmem, updateStats]
    split_ifs <;> simp
  · intro hskip
    have : ¬ (evaluateOpportunity item state).action = .BUY := by
      rw [hskip]
      simp
    simp [decisionStep, this]

/-- Witness for the amended C2: on a concrete BUY, the id is appended and
the budget decremented. -/
theorem decisionStep_effects_witness :
    (decisionStep richState buyItem).2.purchasedIds = richState.purchasedIds ++ [buyItem.id] ∧
    (decisionStep richState buyItem).2.budget = richState.budget - buyItem.price := by
  have h := (decisionStep_effects richState buyItem []).2.2.1 (by
    norm_num [evaluateOpportunity, hasPurchased, validateBudget, buyItem, richState,
      MIN_PROFIT_MARGIN, MIN_PROFIT, createInitialState])
  exact ⟨h.1, h.2.1⟩

/-! ### C3: the budget is never exceeded -/

theorem addPurchasedId_budget (id : String) (s : DecisionActorState) :
    (addPurchasedId id s).budget = s.budget := by
  unfold addPurchasedId
  split <;> rfl

theorem updateStats_budget (d : Decision) (s : DecisionActorState) :
    (updateStats d s).budget = s.budget := by
  unfold updateStats
  split <;> rfl

theorem decisionStep_fst (s : DecisionActorState) (i : EvaluatedListing) :
    (decisionStep s i).1 = evaluateOpportunity i s := by
  simp only [decisionStep]
  split <;> rfl

theorem decisionStep_price (s : DecisionActorState) (i : EvaluatedListing) :
    (decisionStep s i).1.price = i.price := by
  rw [decisionStep_fst, evaluateOpportunity_price]

/-- The budget after one step: unchanged on SKIP, reduced by the item's
price on BUY. -/
theorem decisionStep_budget (s : DecisionActorState) (i : EvaluatedListing) :
    (decisionStep s i).2.budget =
      s.budget - (if (evaluateOpportunity i s).action = .BUY then i.price else 0) := by
  simp only [decisionStep]
  split
  · next hbuy =>
    simp [hbuy, updateStats_budget, addPurchasedId_budget, evaluateOpportunity_price]
  · next hnot =>
    simp [hnot]

theorem sumBuyPrices_cons (d : Decision) (ds : List Decision) :
    sumBuyPrices (d :: ds) =
      (if d.action = .BUY then d.price else 0) + sumBuyPrices ds := by
  by_cases h : d.action = .BUY <;> simp [sumBuyPrices, h]

/-- The final budget of a batch is the initial budget minus the total
spent on BUYs. -/
theorem makeDecisionsFrom_budget (evaluated : List EvaluatedListing)
    (state : DecisionActorState) :
    (makeDecisionsFrom evaluated state).2.budget =
      state.budget - sumBuyPrices (makeDecisionsFrom evaluated state).1 := by
  induction evaluated generalizing state with
  | nil => simp [makeDecisionsFrom, sumBuyPrices]
  | cons item rest ih =>
    simp only [makeDecisionsFrom]
    rw [sumBuyPrices_cons, ih, decisionStep_budget, decisionStep_fst,
      evaluateOpportunity_price]
    ring

/-- On a BUY the budget check passed, so the price fits in the positive
budget. -/
theorem buy_price_le_budget (s : DecisionActorState) (i : EvaluatedListing)
    (hbuy : (evaluateOpportunity i s).action = .BUY) :
    0 < s.budget ∧ i.price ≤ s.budget := by
  have hval : validateBudget i.price s.budget = true :=
    ((evaluateOpportunity_buy_iff i s).mp hbuy).2.1
  unfold validateBudget at hval
  split_ifs at hval with hb
  exact ⟨lt_of_not_le hb, by simpa using hval⟩

/-- The remaining budget never becomes negative. -/
theorem makeDecisionsFrom_budget_nonneg (evaluated : List EvaluatedListing)
    (state : DecisionActorState) (h : 0 ≤ state.budget) :
    0 ≤ (makeDecisionsFrom evaluated state).2.budget := by
  induction evaluated generalizing state with
  | nil => simpa [makeDecisionsFrom]
  | cons item rest ih =>
    simp only [makeDecisionsFrom]
    apply ih
    rw [decisionStep_budget]
    split_ifs with hbuy
    · have := buy_price_le_budget state item hbuy
      linarith [this.2]
    · simpa

/-- **C3**: for every list of evaluated listings and every non-negative
starting budget B, one `makeDecisions` run spends at most B on BUYs; in
particular two items each costing 300 against a budget of 500 yield at
most one BUY. -/
theorem makeDecisions_within_budget (evaluated : List EvaluatedListing) (B : ℚ)
    (hB : 0 ≤ B) (i1 i2 : EvaluatedListing) (h1 : i1.price = 300) (h2 : i2.price = 300) :
    sumBuyPrices (makeDecisions evaluated B) ≤ B ∧
    countBuys (makeDecisions [i1, i2] 500) ≤ 1 := by
  have hgen : ∀ (ev : List EvaluatedListing) (s : DecisionActorState), 0 ≤ s.budget →
      sumBuyPrices (makeDecisionsFrom ev s).1 ≤ s.budget := by
    intro ev s hs
    have hb := makeDecisionsFrom_budget ev s
    have hn := makeDecisionsFrom_budget_nonneg ev s hs
    linarith
  refine ⟨hgen evaluated (initialSessionState B) (by simpa [initialSessionState]), ?_⟩
  have hsum : sumBuyPrices (makeDecisions [i1, i2] 500) ≤ 500 :=
    hgen [i1, i2] (initialSessionState 500) (by norm_num [initialSessionState])
  set s0 := initialSessionState 500 with hs0
  set d1 := (decisionStep s0 i1).1 with hd1
  set s1 := (decisionStep s0 i1).2 with hs1
  set d2 := (decisionStep s1 i2).1 with hd2
  have hds : makeDecisions [i1, i2] 500 = [d1, d2] := by
    simp [makeDecisions, makeDecisionsFrom, hd1, hd2, hs1, hs0]
  have hp1 : d1.price = 300 := by rw [hd1, decisionStep_price, h1]
  have hp2 : d2.price = 300 := by rw [hd2, decisionStep_price, h2]
  rw [hds]
  rcases hA : d1.action with _ | _
  · rcases hB2 : d2.action with _ | _
    · exfalso
      rw [hds] at hsum
      rw [sumBuyPrices_cons, sumBuyPrices_cons, hA, hB2, hp1, hp2] at hsum
      simp [sumBuyPrices] at hsum
      linarith
    · simp [countBuys, hA, hB2]
  · simp [countBuys, hA]
    exact le_trans (List.length_filter_le _ _) (by simp)

/-- First of two concrete listings priced at 300. -/
def item300a : EvaluatedListing :=
  { id := "item-300a"
    title := "Bike"
    price := 300
    score := 75
    estimated_resale := 450
    profit_potential := 150
    profit_margin := 0.5 }

/-- Second of two concrete listings priced at 300. -/
def item300b : EvaluatedListing :=
  { id := "item-300b"
    title := "Scooter"
    price := 300
    score := 70
    estimated_resale := 450
    profit_potential := 150
    profit_margin := 0.5 }

/-- Witness for C3 at a concrete batch and budget. -/
theorem makeDecisions_within_budget_witness :
    sumBuyPrices (makeDecisions [buyItem] 1000) ≤ 1000 ∧
    countBuys (makeDecisions [item300a, item300b] 500) ≤ 1 :=
  makeDecisions_within_budget [buyItem] 1000 (by norm_num) item300a item300b rfl rfl

/-! ### C4: a purchased id never receives a second BUY -/

theorem updateStats_purchasedIds (d : Decision) (s : DecisionActorState) :
    (updateStats d s).purchasedIds = s.purchasedIds := by
  unfold updateStats
  split <;> rfl

theorem addPurchasedId_mem (id x : String) (s : DecisionActorState)
    (hx : x ∈ s.purchasedIds) : x ∈ (addPurchasedId id s).purchasedIds := by
  unfold addPurchasedId
  split
  · exact hx
  · exact List.mem_append_left _ hx

/-- The purchased-id set only grows across a step. -/
theorem decisionStep_purchasedIds_mono (s : DecisionActorState) (i : EvaluatedListing)
    (x : String) (hx : x ∈ s.purchasedIds) :
    x ∈ (decisionStep s i).2.purchasedIds := by
  simp only [decisionStep]
  split
  · next hbuy =>
    simpa [updateStats_purchasedIds] using addPurchasedId_mem i.id x s hx
  · next hnot => exact hx

/-- **C4**: in any batch run from a state whose `purchasedListingIds`
already contains an id, every decision for that id is SKIP with the
"already purchased" reasoning — it never receives a second BUY, regardless
of score, price or profit figures. -/
theorem no_second_buy (state : DecisionActorState) (evaluated : List EvaluatedListing)
    (d : Decision) (hd : d ∈ (makeDecisionsFrom evaluated state).1)
    (hmem : d.item_id ∈ state.purchasedIds) :
    d.action = .SKIP ∧ d.reasoning = .alreadyPurchased := by
  induction evaluated generalizing state with
  | nil => simp [makeDecisionsFrom] at hd
  | cons item rest ih =>
    simp only [makeDecisionsFrom, List.mem_cons] at hd
    rcases hd with hd | hd
    · rw [decisionStep_fst] at hd
      subst hd
      rw [evaluateOpportunity_item_id] at hmem
      have hhp : hasPurchased item.id state = true := by
        simpa [hasPurchased] using hmem
      simp [evaluateOpportunity, hhp]
    · exact ih (decisionStep state item).2 hd
        (decisionStep_purchasedIds_mono state item d.item_id hmem)

/-- A state that has already purchased "item-1". -/
def purchasedState : DecisionActorState :=
  { budget := 500
    purchasedIds := ["item-1"]
    stats := createInitialState.stats }

/-- A high-scoring listing whose id was already purchased. -/
def repeatItem : EvaluatedListing :=
  { id := "item-1"
    title := "Camera"
    price := 100
    score := 95
    estimated_resale := 400
    profit_potential := 300
    profit_margin := 3 }

/-- Witness for C4 on a concrete already-purchased listing. -/
theorem no_second_buy_witness :
    ({ action := .SKIP, item_id := "item-1", title := "Camera", price := 100
       score := 95, profit_potential := 300
       reasoning := .alreadyPurchased } : Decision).action = .SKIP ∧
    ({ action := .SKIP, item_id := "item-1", title := "Camera", price := 100
       score := 95, profit_potential := 300
       reasoning := .alreadyPurchased } : Decision).reasoning = .alreadyPurchased :=
  no_second_buy purchasedState [repeatItem]
    { action := .SKIP, item_id := "item-1", title := "Camera", price := 100
      score := 95, profit_potential := 300, reasoning := .alreadyPurchased }
    (by decide) (by decide)

/-! ### C5: what mutates the agent state -/

theorem countBuys_cons (d : Decision) (ds : List Decision) :
    countBuys (d :: ds) = (if d.action = .BUY then 1 else 0) + countBuys ds := by
  by_cases h : d.action = .BUY <;> simp [countBuys, h, Nat.add_comm]

theorem decisionStep_state_of_skip (s : DecisionActorState) (i : EvaluatedListing)
    (h : ¬ (evaluateOpportunity i s).action = .BUY) : (decisionStep s i).2 = s := by
  simp [decisionStep, h]

/-- A batch that emits no BUY leaves the controller state untouched. -/
theorem makeDecisionsFrom_no_buy (evaluated : List EvaluatedListing)
    (s : DecisionActorState) (h : countBuys (makeDecisionsFrom evaluated s).1 = 0) :
    (makeDecisionsFrom evaluated s).2 = s := by
  induction evaluated generalizing s with
  | nil => rfl
  | cons i rest ih =>
    simp only [makeDecisionsFrom] at h ⊢
    rw [countBuys_cons] at h
    have hnb : ¬ (decisionStep s i).1.action = .BUY := by
      intro hb
      simp [hb] at h
    have hstate : (decisionStep s i).2 = s :=
      decisionStep_state_of_skip s i (by rwa [decisionStep_fst] at hnb)
    rw [hstate] at h ⊢
    simp only [hnb, if_false] at h
    exact ih s (by simpa using h)

/-- C5 is false as stated: `DecisionActor.updateConfig` produces no BUY
decision (it produces no decisions at all) yet reassigns the remaining
budget. -/
theorem updateConfig_counterexample :
    (updateConfig (some 123) createInitialState).budget = 123 ∧
    createInitialState.budget = 5000 ∧
    (updateConfig (some 123) createInitialState).budget ≠ createInitialState.budget := by
  refine ⟨rfl, rfl, ?_⟩
  norm_num [updateConfig, createInitialState]

/-- **C5 (amended)**: `purchasedListingIds` is mutated only by BUY
decisions: a `DecisionActor.makeDecisions` call whose batch emits no BUY
leaves `purchasedListingIds` and every cumulative stat except
`listings_scanned` unchanged — but it still reassigns the remaining
budget to its budget argument and increments `listings_scanned` by the
batch size — and `updateConfig` changes neither `purchasedListingIds` nor
the stats, though it may reassign the budget. -/
theorem agentState_frame (s : DecisionActorState) (evaluated : List EvaluatedListing)
    (budget : ℚ) (budget? : Option ℚ) :
    (countBuys (actorMakeDecisions evaluated budget s).1 = 0 →
      (actorMakeDecisions evaluated budget s).2.purchasedIds = s.purchasedIds ∧
      (actorMakeDecisions evaluated budget s).2.budget = budget ∧
      (actorMakeDecisions evaluated budget s).2.stats.items_purchased =
        s.stats.items_purchased ∧
      (actorMakeDecisions evaluated budget s).2.stats.items_listed = s.stats.items_listed ∧
      (actorMakeDecisions evaluated budget s).2.stats.total_invested =
        s.stats.total_invested ∧
      (actorMakeDecisions evaluated budget s).2.stats.potential_revenue =
        s.stats.potential_revenue ∧
      (actorMakeDecisions evaluated budget s).2.stats.expected_profit =
        s.stats.expected_profit ∧
      (actorMakeDecisions evaluated budget s).2.stats.expected_roi =
        s.stats.expected_roi ∧
      (actorMakeDecisions evaluated budget s).2.stats.listings_scanned =
        s.stats.listings_scanned + evaluated.length) ∧
    ((updateConfig budget? s).purchasedIds = s.purchasedIds ∧
      (updateConfig budget? s).stats = s.stats) := by
  constructor
  · intro h
    have hstate : (makeDecisionsFrom evaluated { s with budget := budget }).2 =
        { s with budget := budget } :=
      makeDecisionsFrom_no_buy evaluated { s with budget := budget } h
    simp [actorMakeDecisions, hstate]
  · cases budget? <;> simp [updateConfig]

/-- A listing far beyond the session budget. -/
def overpricedItem : EvaluatedListing :=
  { id := "item-big"
    title := "Yacht"
    price := 2000
    score := 88
    estimated_resale := 3000
    profit_potential := 1000
    profit_margin := 0.5 }

/-- Witness for the amended C5 on a concrete no-BUY batch and a concrete
config update. -/
theorem agentState_frame_witness :
    (actorMakeDecisions [overpricedItem] 100 createInitialState).2.purchasedIds =
      createInitialState.purchasedIds ∧
    (actorMakeDecisions [overpricedItem] 100 createInitialState).2.budget = 100 ∧
    (updateConfig (some 42) createInitialState).purchasedIds =
      createInitialState.purchasedIds :=
  ⟨((agentState_frame createInitialState [overpricedItem] 100 (some 42)).1 (by decide)).1,
   ((agentState_frame createInitialState [overpricedItem] 100 (some 42)).1 (by decide)).2.1,
   (agentState_frame createInitialState [overpricedItem] 100 (some 42)).2.1⟩

/-! ### C6: the MSRP-anchoring score -/

/-- **C6**: the MSRP score is 0 for a zero MSRP; for a positive MSRP it is
100 at or below half MSRP, 0 at or above MSRP, the clamped linear
interpolation `100 * (1 - (price/msrp - 0.5)/0.5)` strictly between, and
exactly 50 at three quarters of MSRP. -/
theorem msrp_score_spec (price msrp : ℚ) :
    (msrp = 0 → calculateMSRPScore price msrp = 0) ∧
    (0 < msrp →
      (price ≤ msrp / 2 → calculateMSRPScore price msrp = 100) ∧
      (msrp ≤ price → calculateMSRPScore price msrp = 0) ∧
      (msrp / 2 < price → price < msrp →
        calculateMSRPScore price msrp =
          max 0 (min 100 (100 * (1 - (price / msrp - 0.5) / 0.5)))) ∧
      calculateMSRPScore (0.75 * msrp) msrp = 50) := by
  constructor
  · intro h0
    simp [calculateMSRPScore, h0]
  · intro hm
    have hne : msrp ≠ 0 := ne_of_gt hm
    refine ⟨?_, ?_, ?_, ?_⟩
    · intro hp
      have hlt : price < msrp := by linarith
      have hratio : price / msrp ≤ 0.5 := by
        rw [div_le_iff₀ hm]
        linarith
      simp [calculateMSRPScore, hne, not_le.mpr hlt, hratio]
    · intro hge
      simp [calculateMSRPScore, hne, hge]
    · intro hlow hhigh
      have hnge : ¬ msrp ≤ price := not_le.mpr hhigh
      have hratio : ¬ price / msrp ≤ 0.5 := by
        rw [div_le_iff₀ hm]
        exact not_le.mpr (by linarith)
      simp [calculateMSRPScore, hne, hnge, hratio]
    · have hr : (0.75 : ℚ) * msrp / msrp = 0.75 := by
        field_simp
      have hnge : ¬ msrp ≤ 0.75 * msrp := not_le.mpr (by linarith)
      have hratio : ¬ (0.75 : ℚ) * msrp / msrp ≤ 0.5 := by
        rw [hr]
        norm_num
      simp [calculateMSRPScore, hne, hnge, hratio, hr]
      norm_num

/-- Witness for C6: the score at three quarters of MSRP 4 is 50, and an
above-MSRP price scores 0. -/
theorem msrp_score_spec_witness :
    calculateMSRPScore (0.75 * 4) 4 = 50 ∧ calculateMSRPScore 10 8 = 0 :=
  ⟨((msrp_score_spec 3 4).2 (by norm_num)).2.2.2,
   ((msrp_score_spec 10 8).2 (by norm_num)).2.1 (by norm_num)⟩

/-! ### C7: the historical-range score -/

theorem historicalScore_nonneg (p : ℚ) (h : HistoricalData) :
    0 ≤ calculateHistoricalScore p h := by
  unfold calculateHistoricalScore
  split_ifs <;> simp [le_max_left]

theorem historicalScore_le_100 (p : ℚ) (h : HistoricalData) :
    calculateHistoricalScore p h ≤ 100 := by
  unfold calculateHistoricalScore
  split_ifs <;>
    simp [max_le_iff, min_le_left]

/-- **C7**: with min ≤ max, the historical score is 100 everywhere in the
degenerate min = max case; otherwise it is 100 at or below min, 0 at or
above max, and monotonically non-increasing in the price on [min, max]. -/
theorem historical_score_spec (h : HistoricalData) (_hminmax : h.min ≤ h.max) :
    (h.min = h.max → ∀ p : ℚ, calculateHistoricalScore p h = 100) ∧
    (h.min < h.max →
      (∀ p : ℚ, p ≤ h.min → calculateHistoricalScore p h = 100) ∧
      (∀ p : ℚ, h.max ≤ p → calculateHistoricalScore p h = 0) ∧
      (∀ p q : ℚ, h.min ≤ p → p ≤ q → q ≤ h.max →
        calculateHistoricalScore q h ≤ calculateHistoricalScore p h)) := by
  constructor
  · intro heq p
    simp [calculateHistoricalScore, heq]
  · intro hlt
    have hne : h.min ≠ h.max := ne_of_lt hlt
    refine ⟨?_, ?_, ?_⟩
    · intro p hp
      simp [calculateHistoricalScore, hne, hp]
    · intro p hp
      by_cases hp1 : p ≤ h.min
      · exfalso
        linarith
      · simp [calculateHistoricalScore, hne, hp1, hp]
    · intro p q hp hpq hq
      by_cases hq1 : q ≤ h.min
      · have hp1 : p ≤ h.min := le_trans hpq hq1
        simp [calculateHistoricalScore, hne, hq1, hp1]
      · by_cases hq2 : h.max ≤ q
        · have hzero : calculateHistoricalScore q h = 0 := by
            simp [calculateHistoricalScore, hne, hq1, hq2]
          rw [hzero]
          exact historicalScore_nonneg p h
        · have hq2' : q < h.max := lt_of_not_le hq2
          by_cases hp1 : p ≤ h.min
          · have hfull : calculateHistoricalScore p h = 100 := by
              simp [calculateHistoricalScore, hne, hp1]
            rw [hfull]
            exact historicalScore_le_100 q h
          · have hp2' : p < h.max := lt_of_le_of_lt hpq hq2'
            have e1 : calculateHistoricalScore p h =
                max 0 (min 100 (100 * (1 - (p - h.min) / (h.max - h.min)))) := by
              simp [calculateHistoricalScore, hne, hp1, not_le.mpr hp2']
            have e2 : calculateHistoricalScore q h =
                max 0 (min 100 (100 * (1 - (q - h.min) / (h.max - h.min)))) := by
              simp [calculateHistoricalScore, hne, hq1, not_le.mpr hq2']
            rw [e1, e2]
            have hd : 0 < h.max - h.min := by linarith
            have hdiv : (p - h.min) / (h.max - h.min) ≤ (q - h.min) / (h.max - h.min) :=
              (div_le_div_iff_of_pos_right hd).mpr (by linarith)
            exact max_le_max (le_refl 0)
              (min_le_min (le_refl 100) (by linarith))

/-- Witness for C7 at the reference data of the end-to-end scenario. -/
theorem historical_score_spec_witness :
    calculateHistoricalScore 400 ⟨650, 400, 1200, 999⟩ = 100 ∧
    calculateHistoricalScore 1200 ⟨650, 400, 1200, 999⟩ = 0 ∧
    calculateHistoricalScore 800 ⟨650, 400, 1200, 999⟩ ≤
      calculateHistoricalScore 500 ⟨650, 400, 1200, 999⟩ :=
  ⟨((historical_score_spec ⟨650, 400, 1200, 999⟩ (by norm_num)).2 (by norm_num)).1
      400 (by norm_num),
   ((historical_score_spec ⟨650, 400, 1200, 999⟩ (by norm_num)).2 (by norm_num)).2.1
      1200 (by norm_num),
   ((historical_score_spec ⟨650, 400, 1200, 999⟩ (by norm_num)).2 (by norm_num)).2.2
      500 800 (by norm_num) (by norm_num) (by norm_num)⟩

/-! ### C8: product-key extraction -/

/-- C8 is false as stated: the title " gadget" (leading space) is
non-empty, matches no keyword, and its first whitespace-delimited token is
"gadget", yet the code returns "unknown" — `split(' ')[0]` is the empty
string for a title starting with a space, and the empty string falls back
to the sentinel. -/
theorem extractProductKey_counterexample :
    strContains (strToLower " gadget") "iphone" = false ∧
    strContains (strToLower " gadget") "macbook" = false ∧
    strContains (strToLower " gadget") "ps5" = false ∧
    strContains (strToLower " gadget") "laptop" = false ∧
    strContains (strToLower " gadget") "tv" = false ∧
    " gadget" ≠ "" ∧
    extractProductKey " gadget" = "unknown" ∧
    extractProductKey " gadget" ≠ "gadget" := by
  decide

/-- **C8 (amended)**: `extractProductKey` scans the lowercased title for
the fixed ordered keyword list (iphone, macbook, ps5, laptop, tv) and
returns the first keyword in that check order whose text occurs in the
title; if none match it lowercases the text of the title before its first
space character (`split(' ')[0]`), returning that, or the sentinel
"unknown" when that text is empty — which happens for the empty title and
for any title starting with a space. -/
theorem extractProductKey_spec (title : String) :
    (strContains (strToLower title) "iphone" = true →
      extractProductKey title = "iphone") ∧
    (strContains (strToLower title) "iphone" = false →
      strContains (strToLower title) "macbook" = true →
      extractProductKey title = "macbook") ∧
    (strContains (strToLower title) "iphone" = false →
      strContains (strToLower title) "macbook" = false →
      strContains (strToLower title) "ps5" = true →
      extractProductKey title = "ps5") ∧
    (strContains (strToLower title) "iphone" = false →
      strContains (strToLower title) "macbook" = false →
      strContains (strToLower title) "ps5" = false →
      strContains (strToLower title) "laptop" = true →
      extractProductKey title = "laptop") ∧
    (strContains (strToLower title) "iphone" = false →
      strContains (strToLower title) "macbook" = false →
      strContains (strToLower title) "ps5" = false →
      strContains (strToLower title) "laptop" = false →
      strContains (strToLower title) "tv" = true →
      extractProductKey title = "tv") ∧
    (strContains (strToLower title) "iphone" = false →
      strContains (strToLower title) "macbook" = false →
      strContains (strToLower title) "ps5" = false →
      strContains (strToLower title) "laptop" = false →
      strContains (strToLower title) "tv" = false →
      extractProductKey title =
        (if String.mk (takeUntilSpace title.toList) = "" then "unknown"
         else strToLower (String.mk (takeUntilSpace title.toList)))) ∧
    (title = "" → extractProductKey title = "unknown") := by
  refine ⟨?_, ?_, ?_, ?_, ?_, ?_, ?_⟩ <;> intros <;>
    first
      | (subst title; decide)
      | simp [extractProductKey, *]

/-- Witness for the amended C8: a title containing both "tv" and "laptop"
resolves by check order, not string position. -/
theorem extractProductKey_spec_witness :
    extractProductKey "Best TV with laptop bag" = "laptop" :=
  (extractProductKey_spec "Best TV with laptop bag").2.2.2.1
    (by decide) (by decide) (by decide) (by decide)

/-! ### C9: the re-listing sweep -/

theorem invGet_invSet_self (k : String) (v : InventoryItem)
    (m : List (String × InventoryItem)) : invGet k (invSet k v m) = some v := by
  induction m with
  | nil => simp [invGet, invSet]
  | cons hd tl ih =>
    obtain ⟨k', v'⟩ := hd
    by_cases h : k' = k <;> simp [invGet, invSet, h, ih]

theorem invGet_invSet_ne (k k' : String) (v : InventoryItem)
    (m : List (String × InventoryItem)) (hne : k' ≠ k) :
    invGet k' (invSet k v m) = invGet k' m := by
  induction m with
  | nil => simp [invGet, invSet, Ne.symm hne]
  | cons hd tl ih =>
    obtain ⟨k'', v''⟩ := hd
    by_cases h : k'' = k
    · subst h
      simp [invGet, invSet, Ne.symm hne]
    · by_cases h2 : k'' = k' <;> simp [invGet, invSet, h, h2, hne, ih]

theorem invSet_invSet_self (k : String) (v w : InventoryItem)
    (m : List (String × InventoryItem)) :
    invSet k w (invSet k v m) = invSet k w m := by
  induction m with
  | nil => simp [invSet]
  | cons hd tl ih =>
    obtain ⟨k', v'⟩ := hd
    by_cases h : k' = k <;> simp [invSet, h, ih]

theorem invSet_keys_of_mem (k : String) (v : InventoryItem)
    (m : List (String × InventoryItem)) (hk : k ∈ m.map Prod.fst) :
    (invSet k v m).map Prod.fst = m.map Prod.fst := by
  induction m with
  | nil => simp at hk
  | cons hd tl ih =>
    obtain ⟨k', v'⟩ := hd
    by_cases h : k' = k
    · simp [invSet, h]
    · simp only [List.map_cons, List.mem_cons] at hk
      rcases hk with hk | hk
      · exact absurd hk.symm h
      · simp [invSet, h, ih hk]

theorem invGet_mem (k : String) (v : InventoryItem)
    (m : List (String × InventoryItem)) (h : invGet k m = some v) : (k, v) ∈ m := by
  induction m with
  | nil => simp [invGet] at h
  | cons hd tl ih =>
    obtain ⟨k', v'⟩ := hd
    by_cases hk : k' = k
    · subst hk
      simp [invGet] at h
      simp [h]
    · simp [invGet, hk] at h
      exact List.mem_cons_of_mem _ (ih h)

theorem mem_keys_of_invGet (k : String) (v : InventoryItem)
    (m : List (String × InventoryItem)) (h : invGet k m = some v) :
    k ∈ m.map Prod.fst :=
  List.mem_map.mpr ⟨(k, v), invGet_mem k v m h, rfl⟩

theorem invGet_of_mem_nodup (k : String) (v : InventoryItem)
    (m : List (String × InventoryItem)) (hmem : (k, v) ∈ m)
    (hnd : (m.map Prod.fst).Nodup) : invGet k m = some v := by
  induction m with
  | nil => simp at hmem
  | cons hd tl ih =>
    obtain ⟨k', v'⟩ := hd
    simp only [List.map_cons, List.nodup_cons] at hnd
    rcases List.mem_cons.mp hmem with heq | hmem'
    · injection heq with h1 h2
      subst h1
      subst h2
      simp [invGet]
    · have hk : k' ≠ k := by
        intro hkk
        subst hkk
        exact hnd.1 (List.mem_map.mpr ⟨(k', v), hmem', rfl⟩)
      simp [invGet, hk]
      exact ih hmem' hnd.2

/-- Running the re-listing loop over a snapshot of distinct ids that are
all present in the map: it emits exactly one re-listing per snapshot item,
preserves the keys, leaves every other entry alone, and rewrites each
processed entry to status `listed` with `resale_price` set. -/
theorem relistAux_spec (items : List InventoryItem) :
    ∀ state : InventoryState,
    (∀ i ∈ items, invGet i.id state.inventory = some i) →
    (items.map InventoryItem.id).Nodup →
    ∃ final : InventoryState,
      relistAux items state = .ok (items.map createReListing, final) ∧
      final.inventory.map Prod.fst = state.inventory.map Prod.fst ∧
      (∀ k : String, k ∉ items.map InventoryItem.id →
        invGet k final.inventory = invGet k state.inventory) ∧
      (∀ i ∈ items, invGet i.id final.inventory =
        some { i with status := .listed, resale_price := some i.estimated_resale }) := by
  induction items with
  | nil =>
    intro state _ _
    exact ⟨state, rfl, rfl, fun k _ => rfl, by simp⟩
  | cons i rest ih =>
    intro state hin hnd
    have hi : invGet i.id state.inventory = some i := hin i (List.mem_cons_self i rest)
    obtain ⟨L, hupd⟩ : ∃ L, updateItemStatus i.id .listed state =
        .ok ⟨invSet i.id { i with status := .listed } state.inventory, L⟩ := by
      unfold updateItemStatus
      rw [hi]
      exact ⟨_, rfl⟩
    set s2 : InventoryState :=
      ⟨invSet i.id { i with status := .listed, resale_price := some i.estimated_resale }
        state.inventory, L⟩ with hs2
    have hrun1 : relistAux (i :: rest) state =
        match relistAux rest s2 with
        | .error e => .error e
        | .ok q => .ok (createReListing i :: q.1, q.2) := by
      simp only [relistAux]
      rw [hupd]
      simp only [invGet_invSet_self, invSet_invSet_self, hs2]
    have hin' : ∀ j ∈ rest, invGet j.id s2.inventory = some j := by
      intro j hj
      have hjd : j.id ≠ i.id := by
        intro he
        exact (List.nodup_cons.mp hnd).1 (List.mem_map.mpr ⟨j, hj, he⟩)
      rw [hs2]
      rw [invGet_invSet_ne _ _ _ _ hjd]
      exact hin j (List.mem_cons_of_mem _ hj)
    obtain ⟨final, hrun, hkeys, hout, hdone⟩ := ih s2 hin' (List.nodup_cons.mp hnd).2
    refine ⟨final, ?_, ?_, ?_, ?_⟩
    · rw [hrun1, hrun]
      rfl
    · rw [hkeys, hs2]
      exact invSet_keys_of_mem _ _ _ (mem_keys_of_invGet _ _ _ hi)
    · intro k hk
      have hk1 : k ≠ i.id := fun he => hk (by simp [he])
      have hk2 : k ∉ rest.map InventoryItem.id := fun he => hk (List.mem_cons_of_mem _ he)
      rw [hout k hk2, hs2]
      exact invGet_invSet_ne _ _ _ _ hk1
    · intro j hj
      rcases List.mem_cons.mp hj with heq | hj'
      · subst heq
        have hnotin : j.id ∉ rest.map InventoryItem.id := (List.nodup_cons.mp hnd).1
        rw [hout j.id hnotin, hs2]
        exact invGet_invSet_self _ _ _
      · exact hdone j hj'

/-- **C9**: on a well-formed inventory (distinct keys, each item stored
under its own id), `relistItems` converts exactly the items with status
`purchased` into re-listings (id `resale_` + original id, price the
estimated resale value), flips their status to `listed` with
`resale_price` set, skips `listed`/`sold` items, and is idempotent: a
second sweep over the resulting inventory re-lists nothing. -/
theorem relistItems_idempotent (state : InventoryState)
    (hnd : (state.inventory.map Prod.fst).Nodup)
    (hwf : ∀ kv ∈ state.inventory, (kv : String × InventoryItem).2.id = kv.1) :
    ∃ final : InventoryState,
      relistItems state =
        .ok (((state.inventory.map Prod.snd).filter
          (fun item => item.status = .purchased)).map createReListing, final) ∧
      (∀ i ∈ (state.inventory.map Prod.snd).filter
          (fun item => item.status = .purchased),
        invGet i.id final.inventory =
          some { i with status := .listed, resale_price := some i.estimated_resale }) ∧
      relistItems final = .ok ([], final) := by
  set P := (state.inventory.map Prod.snd).filter
    (fun item => item.status = .purchased) with hP
  have hPfilter : P = ((state.inventory.filter
      (fun kv => kv.2.status = .purchased)).map Prod.snd) := by
    rw [hP]
    exact List.filter_map Prod.snd state.inventory
  have hinP : ∀ i ∈ P, invGet i.id state.inventory = some i := by
    intro i hiP
    have hival : i ∈ state.inventory.map Prod.snd := List.mem_of_mem_filter hiP
    obtain ⟨kv, hkv, hkvi⟩ := List.mem_map.mp hival
    have hid : i.id = kv.1 := by rw [← hkvi]; exact hwf kv hkv
    rw [hid]
    have : (kv.1, i) = kv := by rw [← hkvi]
    exact invGet_of_mem_nodup kv.1 i state.inventory (this ▸ hkv) hnd
  have hndP : (P.map InventoryItem.id).Nodup := by
    have hids : P.map InventoryItem.id =
        (state.inventory.filter (fun kv => kv.2.status = .purchased)).map Prod.fst := by
      rw [hPfilter, List.map_map]
      refine List.map_congr_left ?_
      intro kv hkv
      exact hwf kv (List.mem_of_mem_filter hkv)
    rw [hids]
    exact ((List.filter_sublist state.inventory).map Prod.fst).nodup hnd
  obtain ⟨final, hrun, hkeys, hout, hdone⟩ := relistAux_spec P state hinP hndP
  refine ⟨final, hrun, hdone, ?_⟩
  have hndF : (final.inventory.map Prod.fst).Nodup := hkeys ▸ hnd
  have hempty : (final.inventory.map Prod.snd).filter
      (fun item => item.status = .purchased) = [] := by
    rw [List.filter_eq_nil_iff]
    intro v hv
    obtain ⟨kv, hkv, hkvv⟩ := List.mem_map.mp hv
    have hvget : invGet kv.1 final.inventory = some v :=
      invGet_of_mem_nodup kv.1 v final.inventory (by rw [← hkvv]; exact hkv) hndF
    by_cases hk : kv.1 ∈ P.map InventoryItem.id
    · obtain ⟨j, hjP, hjid⟩ := List.mem_map.mp hk
      have := hdone j hjP
      rw [hjid, hvget] at this
      injection this with hveq
      rw [hveq]
      simp
    · have hsame : invGet kv.1 final.inventory = invGet kv.1 state.inventory := hout kv.1 hk
      have hvstate : invGet kv.1 state.inventory = some v := by rw [← hsame]; exact hvget
      have hvmem : (kv.1, v) ∈ state.inventory := invGet_mem kv.1 v state.inventory hvstate
      have hvid : v.id = kv.1 := hwf (kv.1, v) hvmem
      intro hpurch
      apply hk
      refine List.mem_map.mpr ⟨v, ?_, hvid⟩
      rw [hP]
      refine List.mem_filter.mpr ⟨List.mem_map.mpr ⟨(kv.1, v), hvmem, rfl⟩, ?_⟩
      simpa using hpurch
  show relistAux ((final.inventory.map Prod.snd).filter
    (fun item => item.status = .purchased)) final = .ok ([], final)
  rw [hempty]
  rfl

/-- A two-item inventory: one purchased camera, one already-listed TV. -/
def sampleInventory : InventoryState :=
  { inventory :=
      [("cam-1",
        { id := "cam-1", title := "Camera", price := 150, url := "u1"
          marketplace := "ebay", category := "electronics"
          estimated_resale := 250, status := .purchased, resale_price := none }),
       ("tv-2",
        { id := "tv-2", title := "TV", price := 300, url := "u2"
          marketplace := "facebook", category := "electronics"
          estimated_resale := 450, status := .listed, resale_price := some 450 })]
    listedIds := ["tv-2"] }

/-- Witness for C9 on the concrete two-item inventory. -/
theorem relistItems_idempotent_witness :
    ∃ final : InventoryState,
      relistItems sampleInventory =
        .ok (((sampleInventory.inventory.map Prod.snd).filter
          (fun item => item.status = .purchased)).map createReListing, final) ∧
      (∀ i ∈ (sampleInventory.inventory.map Prod.snd).filter
          (fun item => item.status = .purchased),
        invGet i.id final.inventory =
          some { i with status := .listed, resale_price := some i.estimated_resale }) ∧
      relistItems final = .ok ([], final) :=
  relistItems_idempotent sampleInventory (by decide) (by decide)

end Flipper
